import Mathlib

/-!
Shallow embedding of the storage-adapter core of the
`cloudflare-rr7-shopify-durable-object` repository, with theorems checking
the natural-language specification against it.

Embedded components:
* the Key-Value Table Store (`ShopifyStorage.run` / `first` / `all`);
* the Instance Router (`cleanShop`, `getShopifySessionInstanceName`,
  `extractShopFromSessionId`);
* the Session Adapter (`storeSession`, `loadSession`, `deleteSession`,
  `deleteSessions`, `findSessionsByShop`) over an explicit world state
  mapping instance names to session tables;
* the Settings Adapter (`loadDatabaseSettings`, `updateSetting`,
  `updateDatabaseSetting`, `clearDatabaseSettings`).

Machine-level effects (SQL execution, the Durable Object namespace, the
wall clock) are passed explicitly: SQL outcomes as `Except` values or as
pure table transformations, the namespace as an association list keyed by
instance name, the clock as an explicit argument.
-/

/-! ### Model of the external JSON runtime functions

`JSON.stringify` / `JSON.parse` are host-runtime functions, not repository
code.  They are modelled abstractly by an injective serialization: a
`JsonText` wraps the parsed value, so that `parse (stringify v) = v`
definitionally, which is the documented round-trip contract of the host
functions on JSON-safe values.  `stringify` of a value is never the empty
string, hence a serialized column value is always truthy. -/

inductive JsonScalar where
  | null
  | bool (b : Bool)
  | num (n : Int)
  | str (s : String)
deriving DecidableEq

/-- A JSON-safe structured payload (`onlineAccessInfo` is such an object). -/
structure JsonValue where
  fields : List (String × JsonScalar)
deriving DecidableEq

structure JsonText where
  parsed : JsonValue
deriving DecidableEq

def JSON.stringify (v : JsonValue) : JsonText := ⟨v⟩

def JSON.parse (t : JsonText) : JsonValue := t.parsed

/-! ### Key-Value Table Store (`ShopifyStorage` Durable Object class)

`ctx.storage.sql.exec` either yields a cursor or raises; it is modelled as
a function `exec : String → List SqlValue → Except String (SqlCursor α)`
passed in explicitly.  `run`/`first`/`all` translate the `try`/`catch`
bodies of the source. -/

inductive SqlValue where
  | null
  | int (i : Int)
  | text (s : String)
deriving DecidableEq

structure SqlCursor (α : Type) where
  rows : List α
  rowsRead : Nat
  rowsWritten : Nat
deriving DecidableEq

structure SqlMeta where
  rowsRead : Nat
  rowsWritten : Nat
deriving DecidableEq

structure RunResult where
  success : Bool
  error : Option String
  meta : Option SqlMeta
deriving DecidableEq

structure FirstResult (α : Type) where
  result : Option α
  error : Option String
deriving DecidableEq

structure AllResult (α : Type) where
  results : List α
  error : Option String
  meta : Option SqlMeta
deriving DecidableEq

def ShopifyStorage.run {α : Type}
    (exec : String → List SqlValue → Except String (SqlCursor α))
    (query : String) (params : List SqlValue) : RunResult :=
  match exec query params with
  | .ok cursor => { success := true, error := none,
                    meta := some ⟨cursor.rowsRead, cursor.rowsWritten⟩ }
  | .error e => { success := false, error := some e, meta := none }

def ShopifyStorage.first {α : Type}
    (exec : String → List SqlValue → Except String (SqlCursor α))
    (query : String) (params : List SqlValue) : FirstResult α :=
  match exec query params with
  | .ok cursor => { result := cursor.rows.head?, error := none }
  | .error e => { result := none, error := some e }

def ShopifyStorage.all {α : Type}
    (exec : String → List SqlValue → Except String (SqlCursor α))
    (query : String) (params : List SqlValue) : AllResult α :=
  match exec query params with
  | .ok cursor => { results := cursor.rows, error := none,
                    meta := some ⟨cursor.rowsRead, cursor.rowsWritten⟩ }
  | .error e => { results := [], error := some e, meta := none }

/-! ### Instance Router -/

/-- JS `string.split(sep)` for a single-character separator, on the
character list of the string.  `"".split(c) = [""]`, matching JS. -/
def splitOnChar (c : Char) : List Char → List (List Char)
  | [] => [[]]
  | x :: xs =>
    let r := splitOnChar c xs
    if x = c then [] :: r else (x :: r.headI) :: r.tail

/-- `shopifySessionDb.extractShopFromSessionId`: split the id on `'_'`;
with at least two segments, return the second, truncated at its own `'_'`
when one is present; otherwise null. -/
def extractShopFromSessionId (sessionId : String) : Option String :=
  match splitOnChar '_' sessionId.data with
  | _ :: shopPart :: _ =>
      some (if '_' ∈ shopPart
            then (⟨(splitOnChar '_' shopPart).headI⟩ : String)
            else (⟨shopPart⟩ : String))
  | _ => none

/-- The simpler function the spec describes extraction to coincide with:
the second `'_'`-separated segment when at least two exist, else null
(no truncation step).  Stated for the refinement comparison. -/
def extractShopSimple (sessionId : String) : Option String :=
  match splitOnChar '_' sessionId.data with
  | _ :: shopPart :: _ => some (⟨shopPart⟩ : String)
  | _ => none

/-- `shop.replace(/[^a-zA-Z0-9-]/g, '-')`. -/
def cleanShop (shop : String) : String :=
  ⟨shop.data.map (fun c =>
    if ('a' ≤ c ∧ c ≤ 'z') ∨ ('A' ≤ c ∧ c ≤ 'Z') ∨ ('0' ≤ c ∧ c ≤ '9') ∨ c = '-'
    then c else '-')⟩

/-- `getShopifySessionInstanceName`. -/
def getShopifySessionInstanceName (shop : String) : String :=
  "shopify-sessions-" ++ cleanShop shop

/-! #### Lemmas about `splitOnChar` -/

theorem splitOnChar_ne_nil (c : Char) (l : List Char) : splitOnChar c l ≠ [] := by
  cases l with
  | nil => simp [splitOnChar]
  | cons x xs =>
    simp only [splitOnChar]
    by_cases hx : x = c <;> simp [hx]

theorem splitOnChar_not_mem (c : Char) :
    ∀ (l : List Char), ∀ p ∈ splitOnChar c l, c ∉ p := by
  intro l
  induction l with
  | nil =>
    intro p hp
    simp [splitOnChar] at hp
    simp [hp]
  | cons x xs ih =>
    intro p hp
    simp only [splitOnChar] at hp
    cases hr : splitOnChar c xs with
    | nil => exact absurd hr (splitOnChar_ne_nil c xs)
    | cons h t =>
      rw [hr] at hp
      by_cases hx : x = c
      · simp only [if_pos hx, List.mem_cons] at hp
        rcases hp with h1 | h2
        · simp [h1]
        · exact ih p (by rw [hr]; exact List.mem_cons.mpr h2)
      · simp only [if_neg hx, List.headI_cons, List.tail_cons, List.mem_cons] at hp
        rcases hp with h1 | h2
        · subst h1
          intro hmem
          rcases List.mem_cons.mp hmem with h3 | h4
          · exact hx h3.symm
          · exact ih h (by rw [hr]; exact List.mem_cons_self h t) h4
        · exact ih p (by rw [hr]; exact List.mem_cons_of_mem h h2)

/-! ### Session Adapter

The Durable Object namespace is modelled as an association list from
instance names to tables; a name that has never been written reads as the
empty table (`CREATE TABLE IF NOT EXISTS` makes table creation a no-op in
the model).  `none` for the context models an absent `SHOPIFY_STORAGE`
binding, for which `getShopifySessionsStub` returns null. -/

/-- `@shopify/shopify-api`'s `Session` object (external library), reduced
to the fields the adapter reads and writes.  `expires` is the instant
`Date.getTime()` in epoch milliseconds. -/
structure Session where
  id : String
  shop : String
  state : String
  isOnline : Bool
  scope : Option String
  accessToken : Option String
  expires : Option Int
  onlineAccessInfo : Option JsonValue
deriving DecidableEq

/-- One row of the `shopify_sessions` table, in its column types:
`isOnline INTEGER`, `expires INTEGER` nullable, `onlineAccessInfo TEXT`
nullable (JSON text). -/
structure SessionRow where
  id : String
  shop : String
  state : String
  isOnline : Int
  scope : Option String
  accessToken : Option String
  expires : Option Int
  onlineAccessInfo : Option JsonText
deriving DecidableEq

def getTable {α : Type} (w : List (String × List α)) (name : String) : List α :=
  match w.find? (fun p => decide (p.1 = name)) with
  | some p => p.2
  | none => []

def setTable {α : Type} (w : List (String × List α)) (name : String) (t : List α) :
    List (String × List α) :=
  (name, t) :: w.filter (fun p => decide (p.1 ≠ name))

abbrev SessionWorld := List (String × List SessionRow)

/-- The bound-parameter row written by `storeSession`:
`isOnline ? 1 : 0`, `expires ? expires.getTime() : null` (a `Date` object
is always truthy, epoch 0 included), `onlineAccessInfo ?
JSON.stringify(...) : null`. -/
def sessionToRow (s : Session) : SessionRow :=
  { id := s.id
    shop := s.shop
    state := s.state
    isOnline := if s.isOnline then 1 else 0
    scope := s.scope
    accessToken := s.accessToken
    expires := s.expires
    onlineAccessInfo := s.onlineAccessInfo.map JSON.stringify }

/-- The decoding applied by `loadSession` and `findSessionsByShop`:
`Boolean(row.isOnline)`; `expires` assigned only when the raw column value
is truthy (`0` and null are falsy in JS); `onlineAccessInfo` parsed only
when truthy (a stored JSON text is never the empty string). -/
def decodeSessionRow (row : SessionRow) : Session :=
  { id := row.id
    shop := row.shop
    state := row.state
    isOnline := decide (row.isOnline ≠ 0)
    scope := row.scope
    accessToken := row.accessToken
    expires := match row.expires with
      | some e => if e = 0 then none else some e
      | none => none
    onlineAccessInfo := row.onlineAccessInfo.map JSON.parse }

/-- `shopifySessionDb.storeSession`: route to the instance of
`session.shop`, ensure the table (no-op here), `INSERT OR REPLACE` the
row.  With the binding absent the stub is null, the thrown error is
caught, and the call returns false. -/
def storeSession (ctx : Option SessionWorld) (s : Session) :
    Option SessionWorld × Bool :=
  match ctx with
  | none => (none, false)
  | some w =>
    let name := getShopifySessionInstanceName s.shop
    let table := getTable w name
    let table2 := table.filter (fun r => decide (r.id ≠ s.id)) ++ [sessionToRow s]
    (some (setTable w name table2), true)

/-- `shopifySessionDb.loadSession`: extract the shop from the id; the
`if (!shop)` guard fails both for null and for the empty string (falsy in
JS), returning undefined; otherwise route to that shop's instance,
`SELECT ... WHERE id = ?`, take the first row, decode it. -/
def loadSession (ctx : Option SessionWorld) (id : String) : Option Session :=
  match extractShopFromSessionId id with
  | none => none
  | some shop =>
    if shop = "" then none
    else
      match ctx with
      | none => none
      | some w =>
        let table := getTable w (getShopifySessionInstanceName shop)
        match table.find? (fun r => decide (r.id = id)) with
        | none => none
        | some row => some (decodeSessionRow row)

/-- `shopifySessionDb.deleteSession`: extract the shop; the `if (!shop)`
guard fails both for null and for the empty string (falsy in JS),
returning false; otherwise route and `DELETE ... WHERE id = ?` (succeeds
also when no row matches). -/
def deleteSession (ctx : Option SessionWorld) (id : String) :
    Option SessionWorld × Bool :=
  match extractShopFromSessionId id with
  | none => (ctx, false)
  | some shop =>
    if shop = "" then (ctx, false)
    else
      match ctx with
      | none => (none, false)
      | some w =>
        let name := getShopifySessionInstanceName shop
        let table := getTable w name
        (some (setTable w name (table.filter (fun r => decide (r.id ≠ id)))), true)

/-- `shopifySessionDb.deleteSessions`: sequential per-id deletion,
returning false at the first per-id failure. -/
def deleteSessions (ctx : Option SessionWorld) :
    List String → Option SessionWorld × Bool
  | [] => (ctx, true)
  | id :: rest =>
    let r := deleteSession ctx id
    if r.2 then deleteSessions r.1 rest else (r.1, false)

/-- `shopifySessionDb.findSessionsByShop`: route to the shop's instance,
`SELECT ... WHERE shop = ?`, decode every row; on any fault (including a
null stub) return the empty list. -/
def findSessionsByShop (ctx : Option SessionWorld) (shop : String) :
    List Session :=
  match ctx with
  | none => []
  | some w =>
    ((getTable w (getShopifySessionInstanceName shop)).filter
      (fun r => decide (r.shop = shop))).map decodeSessionRow

/-! #### World-state lemmas -/

theorem getTable_setTable_same {α : Type} (w : List (String × List α))
    (name : String) (t : List α) : getTable (setTable w name t) name = t := by
  simp [getTable, setTable, List.find?]

/-! ### Settings Adapter (`durable.service.ts`) -/

/-- One row of the `settings` table:
`key TEXT PRIMARY KEY, value TEXT, updated_at INTEGER`. -/
structure SettingRow where
  key : String
  value : String
  updated_at : Int
deriving DecidableEq

structure DatabaseConfig where
  key : String
  name : String
  instanceName : String
  tableName : String
  settingKey : String
deriving DecidableEq

def DATABASE_CONFIG : List DatabaseConfig :=
  [ ⟨"DB1", "Primary Database", "database-1", "settings", "test_checkbox_db1"⟩,
    ⟨"DB2", "Secondary Database", "database-2", "settings", "test_checkbox_db2"⟩,
    ⟨"DB3", "Tertiary Database", "database-3", "settings", "test_checkbox_db3"⟩ ]

/-- JS `haystack.includes(needle)` on strings. -/
def containsSubstr (s pat : String) : Bool :=
  (List.range (s.data.length + 1)).any
    (fun i => pat.data.isPrefixOf (s.data.drop i))

/-- The guard `error.message && (error.message.includes('no such table') ||
error.message.includes('does not exist'))`; an empty message is falsy. -/
def tableMissingPattern (msg : String) : Bool :=
  (!(msg == "")) &&
    (containsSubstr msg "no such table" || containsSubstr msg "does not exist")

instance {ε α : Type} [DecidableEq ε] [DecidableEq α] :
    DecidableEq (Except ε α) := fun x y =>
  match x, y with
  | .ok a, .ok b => decidable_of_iff (a = b) (by simp)
  | .error a, .error b => decidable_of_iff (a = b) (by simp)
  | .ok _, .error _ => isFalse (by simp)
  | .error _, .ok _ => isFalse (by simp)

/-- The storage outcomes a `loadDatabaseSettings` call can consult, in
order: the first read-all, the table creation, and the read-all retried
after a successful creation.  Each is a success or a fault message, chosen
by the environment. -/
structure SettingsStubBehavior where
  readAll : Except String (List SettingRow)
  createTable : Except String Unit
  readAllRetry : Except String (List SettingRow)
deriving DecidableEq

/-- The record `loadDatabaseSettings` returns. -/
structure LoadedSettingsData where
  key : String
  name : String
  instanceName : String
  tableName : String
  isChecked : Bool
  dbAvailable : Bool
  allSettings : List SettingRow
  error : Option String
deriving DecidableEq

/-- The storage calls `loadDatabaseSettings` issues, recorded as a trace
so that the retry count is observable. -/
inductive SettingsCall where
  | readAll
  | createTable
deriving DecidableEq

def baseSettingsData (config : DatabaseConfig) : LoadedSettingsData :=
  { key := config.key, name := config.name,
    instanceName := config.instanceName, tableName := config.tableName,
    isChecked := false, dbAvailable := false, allSettings := [], error := none }

/-- `checkboxSetting?.value === "true"` after
`allSettings.find(s => s.key === config.settingKey)`. -/
def isCheckedOf (allSettings : List SettingRow) (settingKey : String) : Bool :=
  match allSettings.find? (fun s => decide (s.key = settingKey)) with
  | some s => s.value == "true"
  | none => false

/-- `loadDatabaseSettings`, returning the data record and the trace of
storage calls: read all settings; on a fault whose message matches the
table-missing pattern, create the table and re-read once; on any other
fault, or a fault of the create/retry, record the message. -/
def loadDatabaseSettings (stub : Option SettingsStubBehavior)
    (config : DatabaseConfig) : LoadedSettingsData × List SettingsCall :=
  match stub with
  | none =>
    ({ baseSettingsData config with
        error := some ("Durable Object instance " ++ config.instanceName
                        ++ " is not available") }, [])
  | some st =>
    match st.readAll with
    | .ok allSettings =>
      ({ baseSettingsData config with
          isChecked := isCheckedOf allSettings config.settingKey,
          dbAvailable := true, allSettings := allSettings, error := none },
        [.readAll])
    | .error msg =>
      if tableMissingPattern msg then
        match st.createTable with
        | .ok _ =>
          match st.readAllRetry with
          | .ok rows =>
            ({ baseSettingsData config with
                isChecked := false, dbAvailable := true,
                allSettings := rows, error := none },
              [.readAll, .createTable, .readAll])
          | .error e =>
            ({ baseSettingsData config with error := some e },
              [.readAll, .createTable, .readAll])
        | .error e =>
          ({ baseSettingsData config with error := some e },
            [.readAll, .createTable])
      else
        ({ baseSettingsData config with error := some msg }, [.readAll])

abbrev SettingsWorld := List (String × List SettingRow)

/-- `updateSetting`'s `INSERT OR REPLACE INTO ... (key, value, updated_at)
VALUES (?, ?, ?)` with `timestamp = Date.now()` passed explicitly as
`now`: the conflicting row is replaced, the fresh row carries the
write-time clock value. -/
def updateSetting (table : List SettingRow) (key value : String) (now : Int) :
    List SettingRow :=
  table.filter (fun r => decide (r.key ≠ key)) ++ [⟨key, value, now⟩]

/-- `SELECT * FROM settings ORDER BY updated_at DESC` (insertion sort by
descending `updated_at`). -/
def insertByUpdatedDesc (r : SettingRow) : List SettingRow → List SettingRow
  | [] => [r]
  | x :: xs =>
    if r.updated_at ≤ x.updated_at then x :: insertByUpdatedDesc r xs
    else r :: x :: xs

def getAllSettingsRows (table : List SettingRow) : List SettingRow :=
  table.foldr insertByUpdatedDesc []

structure UpdateSettingResult where
  success : Bool
  dbKey : Option String
  isChecked : Option Bool
  allSettings : List SettingRow
  error : Option String
deriving DecidableEq

/-- `updateDatabaseSetting`: find the configuration by key, resolve the
stub, upsert `settingKey ↦ "true"/"false"` with the write-time clock, then
re-read all rows for the returned snapshot. -/
def updateDatabaseSetting (ctx : Option SettingsWorld) (dbKey : String)
    (isChecked : Bool) (now : Int) :
    Option SettingsWorld × UpdateSettingResult :=
  match DATABASE_CONFIG.find? (fun c => decide (c.key = dbKey)) with
  | none => (ctx, ⟨false, none, none, [], some "Invalid database key"⟩)
  | some config =>
    match ctx with
    | none =>
      (none, ⟨false, none, none, [],
        some ("Durable Object instance " ++ config.instanceName
               ++ " is not available")⟩)
    | some w =>
      let stringValue := if isChecked then "true" else "false"
      let table := getTable w config.instanceName
      let table2 := updateSetting table config.settingKey stringValue now
      let allSettings := getAllSettingsRows table2
      (some (setTable w config.instanceName table2),
        ⟨true, some dbKey, some isChecked, allSettings, none⟩)

structure ClearResult where
  success : Bool
  dbKey : Option String
  message : Option String
  error : Option String
deriving DecidableEq

/-- `clearDatabaseSettings`: find the configuration, resolve the stub,
`DELETE FROM settings`. -/
def clearDatabaseSettings (ctx : Option SettingsWorld) (dbKey : String) :
    Option SettingsWorld × ClearResult :=
  match DATABASE_CONFIG.find? (fun c => decide (c.key = dbKey)) with
  | none => (ctx, ⟨false, none, none, some "Invalid database key"⟩)
  | some config =>
    match ctx with
    | none =>
      (none, ⟨false, none, none,
        some ("Durable Object instance " ++ config.instanceName
               ++ " is not available")⟩)
    | some w =>
      (some (setTable w config.instanceName ([] : List SettingRow)),
        ⟨true, some dbKey,
          some ("All settings cleared from " ++ config.name), none⟩)

/-! ### Claim theorems -/

/-- C2: for every input string, `extractShopFromSessionId` splits on `'_'`;
with at least two segments it returns the second segment, truncated at its
own `'_'` when one is present, and with fewer than two segments it returns
null; in particular the offline, online, and malformed examples evaluate
as the spec states. -/
theorem C2_extractShop_spec :
    (∀ s : String, extractShopFromSessionId s =
      ((splitOnChar '_' s.data)[1]?).map
        (fun p => if '_' ∈ p then (⟨(splitOnChar '_' p).headI⟩ : String)
                  else (⟨p⟩ : String))) ∧
    extractShopFromSessionId "offline_my-shop.myshopify.com" =
      some "my-shop.myshopify.com" ∧
    extractShopFromSessionId "online_my-shop.myshopify.com_12345" =
      some "my-shop.myshopify.com" ∧
    extractShopFromSessionId "malformed" = none := by
  refine ⟨fun s => ?_, by decide, by decide, by decide⟩
  cases h : splitOnChar '_' s.data with
  | nil => simp [extractShopFromSessionId, h]
  | cons a t =>
    cases t with
    | nil => simp [extractShopFromSessionId, h]
    | cons b t2 => simp [extractShopFromSessionId, h]

/-- C9: the truncation branch of `extractShopFromSessionId` is dead code —
a segment produced by splitting on `'_'` never contains `'_'` — so the
function coincides with the simpler second-segment-or-null function. -/
theorem C9_extract_equals_simple :
    ∀ s : String, extractShopFromSessionId s = extractShopSimple s := by
  intro s
  cases h : splitOnChar '_' s.data with
  | nil => simp [extractShopFromSessionId, extractShopSimple, h]
  | cons a t =>
    cases t with
    | nil => simp [extractShopFromSessionId, extractShopSimple, h]
    | cons b t2 =>
      have hb : '_' ∉ b := by
        refine splitOnChar_not_mem '_' s.data b ?_
        rw [h]
        exact List.mem_cons_of_mem a (List.mem_cons_self b t2)
      simp [extractShopFromSessionId, extractShopSimple, h, hb]

/-- C8 counterexample: two distinct shop domains whose sanitized forms
collide (`'.'` and `'-'` both sanitize to `'-'`), so sanitize-and-prefix
routes two distinct tenants to the same session instance. -/
theorem C8_counterexample :
    getShopifySessionInstanceName "my.shop.myshopify.com" =
      getShopifySessionInstanceName "my-shop.myshopify.com" ∧
    ("my.shop.myshopify.com" : String) ≠ "my-shop.myshopify.com" := by
  exact ⟨by decide, by decide⟩

/-- C8 amended: the prefix step preserves distinctness — two shop domains
with distinct sanitized forms always get distinct instance names; only
sanitization collisions can merge tenants. -/
theorem C8_amended_distinct_names :
    ∀ s₁ s₂ : String, cleanShop s₁ ≠ cleanShop s₂ →
      getShopifySessionInstanceName s₁ ≠ getShopifySessionInstanceName s₂ := by
  intro s₁ s₂ h hc
  apply h
  have hd := congrArg String.data hc
  simp only [getShopifySessionInstanceName, String.data_append] at hd
  have hd2 := List.append_cancel_left hd
  calc cleanShop s₁ = ⟨(cleanShop s₁).data⟩ := rfl
    _ = ⟨(cleanShop s₂).data⟩ := by rw [hd2]
    _ = cleanShop s₂ := rfl

/-- C8 amended witness at two concretely distinct sanitized domains. -/
theorem C8_amended_witness :
    getShopifySessionInstanceName "shop-a.myshopify.com" ≠
      getShopifySessionInstanceName "shop-b.myshopify.com" :=
  C8_amended_distinct_names "shop-a.myshopify.com" "shop-b.myshopify.com"
    (by decide)

/-- C4: `run`/`first`/`all` convert any underlying execution fault into
their structured error shapes and never re-raise; on success `run` reports
rows read/written, `first` returns the first row or null, `all` returns
every row. -/
theorem C4_storage_never_raises :
    ∀ (α : Type) (exec : String → List SqlValue → Except String (SqlCursor α))
      (q : String) (ps : List SqlValue),
      (∀ m, exec q ps = .error m →
        ShopifyStorage.run exec q ps =
          { success := false, error := some m, meta := none } ∧
        ShopifyStorage.first exec q ps = { result := none, error := some m } ∧
        ShopifyStorage.all exec q ps =
          { results := [], error := some m, meta := none }) ∧
      (∀ c, exec q ps = .ok c →
        ShopifyStorage.run exec q ps =
          { success := true, error := none,
            meta := some ⟨c.rowsRead, c.rowsWritten⟩ } ∧
        ShopifyStorage.first exec q ps =
          { result := c.rows.head?, error := none } ∧
        ShopifyStorage.all exec q ps =
          { results := c.rows, error := none,
            meta := some ⟨c.rowsRead, c.rowsWritten⟩ }) := by
  intro α exec q ps
  constructor
  · intro m hm
    simp [ShopifyStorage.run, ShopifyStorage.first, ShopifyStorage.all, hm]
  · intro c hc
    simp [ShopifyStorage.run, ShopifyStorage.first, ShopifyStorage.all, hc]

/-- An execution behaviour that always faults, for the C4 witness. -/
def execBoom : String → List SqlValue → Except String (SqlCursor Nat) :=
  fun _ _ => .error "boom"

/-- C4 witness: the fault branch evaluated at a concrete faulting
execution. -/
theorem C4_witness :
    ShopifyStorage.run execBoom "SELECT 1" [] =
      { success := false, error := some "boom", meta := none } ∧
    ShopifyStorage.first execBoom "SELECT 1" [] =
      { result := none, error := some "boom" } ∧
    ShopifyStorage.all execBoom "SELECT 1" [] =
      { results := [], error := some "boom", meta := none } :=
  (C4_storage_never_raises Nat execBoom "SELECT 1" []).1 "boom" rfl

/-- C7 counterexample: with the storage binding absent, `deleteSessions`
applied to the empty id list returns true, not false — the per-id loop
never runs, so the designated unavailable shape is not produced. -/
theorem C7_counterexample :
    ¬ ((deleteSessions (none : Option SessionWorld) []).2 = false) := by
  decide

/-- C7 amended: with the storage binding absent every adapter call returns
its designated unavailable shape without raising — `storeSession`,
`deleteSession` false, `deleteSessions` false for every nonempty id list
(the empty list returns true vacuously), `loadSession` undefined,
`findSessionsByShop` empty, `loadDatabaseSettings` unavailable with a
non-null error, `updateDatabaseSetting` and `clearDatabaseSettings`
`success:false` with an error. -/
theorem C7_amended_unavailable_shapes :
    ∀ (s : Session) (id : String) (ids : List String) (shop : String)
      (config : DatabaseConfig) (dbKey : String) (isChecked : Bool) (now : Int),
      (storeSession none s).2 = false ∧
      loadSession none id = none ∧
      (deleteSession none id).2 = false ∧
      (ids ≠ [] → (deleteSessions none ids).2 = false) ∧
      findSessionsByShop none shop = [] ∧
      (loadDatabaseSettings none config).1.dbAvailable = false ∧
      (loadDatabaseSettings none config).1.error ≠ none ∧
      (updateDatabaseSetting none dbKey isChecked now).2.success = false ∧
      (updateDatabaseSetting none dbKey isChecked now).2.error ≠ none ∧
      (clearDatabaseSettings none dbKey).2.success = false ∧
      (clearDatabaseSettings none dbKey).2.error ≠ none := by
  intro s id ids shop config dbKey isChecked now
  have hdel : ∀ i : String, (deleteSession (none : Option SessionWorld) i).2 = false := by
    intro i
    cases hext : extractShopFromSessionId i <;> simp [deleteSession, hext]
  refine ⟨rfl, ?_, hdel id, ?_, rfl, rfl, ?_, ?_, ?_, ?_, ?_⟩
  · cases hext : extractShopFromSessionId id <;> simp [loadSession, hext]
  · intro hne
    cases ids with
    | nil => exact absurd rfl hne
    | cons a rest => simp [deleteSessions, hdel a]
  · simp [loadDatabaseSettings, baseSettingsData]
  · cases hf : DATABASE_CONFIG.find? (fun c => decide (c.key = dbKey)) <;>
      simp [updateDatabaseSetting, hf]
  · cases hf : DATABASE_CONFIG.find? (fun c => decide (c.key = dbKey)) <;>
      simp [updateDatabaseSetting, hf]
  · cases hf : DATABASE_CONFIG.find? (fun c => decide (c.key = dbKey)) <;>
      simp [clearDatabaseSettings, hf]
  · cases hf : DATABASE_CONFIG.find? (fun c => decide (c.key = dbKey)) <;>
      simp [clearDatabaseSettings, hf]

/-- C7 amended witness at concrete inputs, with the nonempty-list
hypothesis discharged at `["offline_a.example"]`. -/
theorem C7_amended_witness :
    (deleteSessions (none : Option SessionWorld) ["offline_a.example"]).2 = false :=
  ((C7_amended_unavailable_shapes
      ⟨"offline_a.example", "a.example", "st", false, none, none, none, none⟩
      "offline_a.example" ["offline_a.example"] "a.example"
      ⟨"DB1", "Primary Database", "database-1", "settings", "test_checkbox_db1"⟩
      "DB1" true 0).2.2.2.1) (by simp)

/-- C10: decoding assigns `expires` and `onlineAccessInfo` only when the
raw column value is truthy, so a stored row with `expires = 0` or a falsy
`onlineAccessInfo` is reconstructed with that field unset, and
`loadSession` / `findSessionsByShop` return exactly these decodings of the
rows they select. -/
theorem C10_falsy_columns_unset :
    (∀ row : SessionRow,
      ((row.expires = some 0 ∨ row.expires = none) →
        (decodeSessionRow row).expires = none) ∧
      (row.onlineAccessInfo = none →
        (decodeSessionRow row).onlineAccessInfo = none)) ∧
    (∀ (w : SessionWorld) (id : String),
      loadSession (some w) id =
        (extractShopFromSessionId id).bind (fun shop =>
          if shop = "" then none
          else ((getTable w (getShopifySessionInstanceName shop)).find?
            (fun r => decide (r.id = id))).map decodeSessionRow)) ∧
    (∀ (w : SessionWorld) (shop : String),
      findSessionsByShop (some w) shop =
        ((getTable w (getShopifySessionInstanceName shop)).filter
          (fun r => decide (r.shop = shop))).map decodeSessionRow) := by
  refine ⟨fun row => ⟨?_, ?_⟩, fun w id => ?_, fun w shop => rfl⟩
  · intro h
    rcases h with h0 | hn
    · simp [decodeSessionRow, h0]
    · simp [decodeSessionRow, hn]
  · intro h
    simp [decodeSessionRow, h]
  · cases hext : extractShopFromSessionId id with
    | none => simp [loadSession, hext]
    | some shop =>
      by_cases hs : shop = ""
      · simp [loadSession, hext, hs]
      · cases hf : (getTable w (getShopifySessionInstanceName shop)).find?
            (fun r => decide (r.id = id)) <;>
          simp [loadSession, hext, hs, hf]

/-- C10 witness: a concrete row with `expires = 0` and null
`onlineAccessInfo` decodes with both fields unset. -/
theorem C10_witness :
    (decodeSessionRow
      ⟨"offline_t.example", "t.example", "st", 1, none, none, some 0, none⟩).expires
        = none ∧
    (decodeSessionRow
      ⟨"offline_t.example", "t.example", "st", 1, none, none, some 0, none⟩).onlineAccessInfo
        = none :=
  ⟨(C10_falsy_columns_unset.1
      ⟨"offline_t.example", "t.example", "st", 1, none, none, some 0, none⟩).1
      (Or.inl rfl),
    (C10_falsy_columns_unset.1
      ⟨"offline_t.example", "t.example", "st", 1, none, none, some 0, none⟩).2
      rfl⟩

/-- A session whose `expires` is the epoch instant 0, for the C1
counterexample. -/
def sExp0 : Session :=
  { id := "offline_test.myshopify.com", shop := "test.myshopify.com",
    state := "st", isOnline := false, scope := some "write_products",
    accessToken := some "tok", expires := some 0, onlineAccessInfo := none }

/-- C1 counterexample: a session with `expires` at the epoch instant 0 is
accepted by `storeSession`, but `loadSession` does not return it — the
truthiness check on the raw `expires` column drops the instant 0. -/
theorem C1_counterexample :
    (storeSession (some ([] : SessionWorld)) sExp0).2 = true ∧
    loadSession (storeSession (some ([] : SessionWorld)) sExp0).1 sExp0.id ≠
      some sExp0 := by
  exact ⟨rfl, by decide⟩

theorem decodeSessionRow_sessionToRow (s : Session) (h : s.expires ≠ some 0) :
    decodeSessionRow (sessionToRow s) = s := by
  obtain ⟨id, shop, state, isOnline, scope, accessToken, expires, oai⟩ := s
  cases expires with
  | none =>
    cases isOnline <;> cases oai <;>
      simp [sessionToRow, decodeSessionRow, JSON.stringify, JSON.parse]
  | some e =>
    have he : ¬ e = 0 := by
      intro h0
      apply h
      simp [h0]
    cases isOnline <;> cases oai <;>
      simp [sessionToRow, decodeSessionRow, JSON.stringify, JSON.parse, he]

/-- C1 amended: for every session whose id parses back to its own
nonempty shop (an empty extracted shop is falsy in JS and makes
`loadSession` return undefined) and whose `expires` is not the epoch
instant 0, `storeSession` then `loadSession(s.id)` returns a session
equal to `s` in all fields — `isOnline` decoded from 0/1, `expires`
reconstructed to the same instant, `onlineAccessInfo` deep-equal after
the JSON round-trip, absent fields preserved. -/
theorem C1_amended_roundtrip :
    ∀ (w : SessionWorld) (s : Session),
      extractShopFromSessionId s.id = some s.shop →
      s.shop ≠ "" →
      s.expires ≠ some 0 →
      (storeSession (some w) s).2 = true ∧
      loadSession (storeSession (some w) s).1 s.id = some s := by
  intro w s hext hshop hexp
  refine ⟨rfl, ?_⟩
  have hfind :
      (((getTable w (getShopifySessionInstanceName s.shop)).filter
          (fun r => decide (r.id ≠ s.id)) ++ [sessionToRow s]).find?
        (fun r => decide (r.id = s.id))) = some (sessionToRow s) := by
    rw [List.find?_append]
    have h1 : ((getTable w (getShopifySessionInstanceName s.shop)).filter
        (fun r => decide (r.id ≠ s.id))).find?
          (fun r => decide (r.id = s.id)) = none := by
      refine List.find?_eq_none.mpr ?_
      intro x hx
      have hx2 := (List.mem_filter.mp hx).2
      simp at hx2 ⊢
      exact hx2
    rw [h1]
    simp [List.find?, sessionToRow]
  show loadSession
      (some (setTable w (getShopifySessionInstanceName s.shop)
        ((getTable w (getShopifySessionInstanceName s.shop)).filter
          (fun r => decide (r.id ≠ s.id)) ++ [sessionToRow s]))) s.id = some s
  simp only [loadSession, hext, if_neg hshop, getTable_setTable_same, hfind]
  rw [decodeSessionRow_sessionToRow s hexp]

/-- A representative full session for the C1 witness. -/
def sRt : Session :=
  { id := "offline_demo-shop.myshopify.com", shop := "demo-shop.myshopify.com",
    state := "state123", isOnline := true, scope := some "read_orders",
    accessToken := some "shpat-abc", expires := some 1700000000000,
    onlineAccessInfo := some ⟨[("expires_in", JsonScalar.num 3600)]⟩ }

/-- C1 amended witness at a concrete populated session. -/
theorem C1_amended_witness :
    (storeSession (some ([] : SessionWorld)) sRt).2 = true ∧
    loadSession (storeSession (some ([] : SessionWorld)) sRt).1 sRt.id =
      some sRt :=
  C1_amended_roundtrip [] sRt (by decide) (by decide) (by decide)

/-- The starting world for the C5 concrete scenario: one session stored
for shop `shopa.example`, another for `shopc.example`. -/
def rowA : SessionRow :=
  ⟨"offline_shopa.example", "shopa.example", "st", 0, none, none, none, none⟩

def rowC : SessionRow :=
  ⟨"offline_shopc.example", "shopc.example", "st", 0, none, none, none, none⟩

def w0C5 : SessionWorld :=
  [("shopify-sessions-shopa-example", [rowA]),
   ("shopify-sessions-shopc-example", [rowC])]

/-- C5: `deleteSessions` deletes sequentially and stops at the first
per-id failure, returning false, leaving prior deletions in place and
never touching later ids; it returns true only when every sequential
deletion succeeds.  The concrete conjuncts run the `[a, b, c]` scenario
(`b` has no `'_'`, so its deletion fails): the result is false and the
world is exactly the one after deleting `a` alone, with `a` gone and `c`
still loadable. -/
theorem C5_deleteSessions_stop_on_first_failure :
    (∀ (ctx w₁ w₂ : Option SessionWorld) (pre : List String) (b : String)
        (post : List String),
      deleteSessions ctx pre = (w₁, true) →
      deleteSession w₁ b = (w₂, false) →
      deleteSessions ctx (pre ++ b :: post) = (w₂, false)) ∧
    (∀ (ctx : Option SessionWorld) (pre : List String) (b : String)
        (post : List String),
      (deleteSessions ctx (pre ++ b :: post)).2 = true →
      (deleteSession (deleteSessions ctx pre).1 b).2 = true) ∧
    ((deleteSessions (some w0C5)
        ["offline_shopa.example", "malformed", "offline_shopc.example"]).2
      = false ∧
     (deleteSessions (some w0C5)
        ["offline_shopa.example", "malformed", "offline_shopc.example"]).1
      = (deleteSession (some w0C5) "offline_shopa.example").1 ∧
     loadSession (deleteSessions (some w0C5)
        ["offline_shopa.example", "malformed", "offline_shopc.example"]).1
        "offline_shopa.example" = none ∧
     loadSession (deleteSessions (some w0C5)
        ["offline_shopa.example", "malformed", "offline_shopc.example"]).1
        "offline_shopc.example" = some (decodeSessionRow rowC)) := by
  refine ⟨?_, ?_, by decide, by decide, by decide, by decide⟩
  · intro ctx w₁ w₂ pre b post hpre hb
    induction pre generalizing ctx with
    | nil =>
      simp only [deleteSessions] at hpre
      injection hpre with h1 h2
      subst h1
      simp [deleteSessions, hb]
    | cons a rest ih =>
      simp only [List.cons_append, deleteSessions] at hpre ⊢
      cases hda : (deleteSession ctx a).2 with
      | false =>
        rw [hda] at hpre
        simp at hpre
      | true =>
        rw [hda] at hpre
        simp at hpre ⊢
        exact ih _ hpre
  · intro ctx pre b post htrue
    induction pre generalizing ctx with
    | nil =>
      simp only [List.nil_append, deleteSessions] at htrue
      cases hdb : (deleteSession ctx b).2 with
      | false =>
        rw [hdb] at htrue
        simp at htrue
      | true => simp [deleteSessions, hdb]
    | cons a rest ih =>
      simp only [List.cons_append, deleteSessions] at htrue ⊢
      cases hda : (deleteSession ctx a).2 with
      | false =>
        rw [hda] at htrue
        simp at htrue
      | true =>
        rw [hda] at htrue
        simp at htrue ⊢
        exact ih _ htrue

/-- C5 witness: the stop-on-first-failure conjunct applied at the concrete
`[a, b, c]` scenario. -/
theorem C5_witness :
    deleteSessions (some w0C5)
      ["offline_shopa.example", "malformed", "offline_shopc.example"] =
      ((deleteSession (some w0C5) "offline_shopa.example").1, false) :=
  C5_deleteSessions_stop_on_first_failure.1 (some w0C5)
    (deleteSession (some w0C5) "offline_shopa.example").1
    (deleteSession (some w0C5) "offline_shopa.example").1
    ["offline_shopa.example"] "malformed" ["offline_shopc.example"]
    (by decide) (by decide)

theorem insertByUpdatedDesc_perm (r : SettingRow) (l : List SettingRow) :
    List.Perm (insertByUpdatedDesc r l) (r :: l) := by
  induction l with
  | nil => exact List.Perm.refl _
  | cons x xs ih =>
    simp only [insertByUpdatedDesc]
    by_cases h : r.updated_at ≤ x.updated_at
    · rw [if_pos h]
      exact (ih.cons x).trans (List.Perm.swap r x xs)
    · rw [if_neg h]

theorem getAllSettingsRows_perm (t : List SettingRow) :
    List.Perm (getAllSettingsRows t) t := by
  induction t with
  | nil => exact List.Perm.refl _
  | cons x xs ih =>
    simp only [getAllSettingsRows, List.foldr_cons]
    exact (insertByUpdatedDesc_perm x _).trans (ih.cons x)

theorem updateSetting_filter_key (table : List SettingRow) (k v : String)
    (t : Int) :
    (updateSetting table k v t).filter (fun r => decide (r.key = k)) =
      [⟨k, v, t⟩] := by
  simp only [updateSetting, List.filter_append]
  have h1 : (table.filter (fun r => decide (r.key ≠ k))).filter
      (fun r => decide (r.key = k)) = [] := by
    refine List.filter_eq_nil_iff.mpr ?_
    intro x hx
    have hx2 := (List.mem_filter.mp hx).2
    simp at hx2 ⊢
    exact hx2
  rw [h1]
  simp [List.filter]

/-- C6: `updateSetting` is an upsert — after writing the same key twice
with different values exactly one row holds that key, carrying the second
value and the second write-time clock reading; `updateDatabaseSetting`
passes the write-time clock (never caller data) as `updated_at`, succeeds,
and returns a snapshot re-read from the updated table in which the setting
key's unique row carries the fresh value and timestamp. -/
theorem C6_updateSetting_upsert :
    (∀ (table : List SettingRow) (k v₁ v₂ : String) (t₁ t₂ : Int),
      v₁ ≠ v₂ →
      ((updateSetting (updateSetting table k v₁ t₁) k v₂ t₂).filter
        (fun r => decide (r.key = k))) = [⟨k, v₂, t₂⟩]) ∧
    (∀ (w : SettingsWorld) (dbKey : String) (isChecked : Bool) (now : Int)
        (config : DatabaseConfig),
      DATABASE_CONFIG.find? (fun c => decide (c.key = dbKey)) = some config →
      (updateDatabaseSetting (some w) dbKey isChecked now).2.success = true ∧
      List.Perm (updateDatabaseSetting (some w) dbKey isChecked now).2.allSettings
        (updateSetting (getTable w config.instanceName) config.settingKey
          (if isChecked then "true" else "false") now) ∧
      ((updateDatabaseSetting (some w) dbKey isChecked now).2.allSettings.filter
        (fun r => decide (r.key = config.settingKey))) =
        [⟨config.settingKey, if isChecked then "true" else "false", now⟩]) := by
  constructor
  · intro table k v₁ v₂ t₁ t₂ hne
    exact updateSetting_filter_key (updateSetting table k v₁ t₁) k v₂ t₂
  · intro w dbKey isChecked now config hf
    have hsucc :
        (updateDatabaseSetting (some w) dbKey isChecked now).2.success = true := by
      simp [updateDatabaseSetting, hf]
    have hall :
        (updateDatabaseSetting (some w) dbKey isChecked now).2.allSettings =
          getAllSettingsRows (updateSetting (getTable w config.instanceName)
            config.settingKey (if isChecked then "true" else "false") now) := by
      simp [updateDatabaseSetting, hf]
    refine ⟨hsucc, ?_, ?_⟩
    · rw [hall]
      exact getAllSettingsRows_perm _
    · rw [hall]
      have hperm := (getAllSettingsRows_perm
        (updateSetting (getTable w config.instanceName) config.settingKey
          (if isChecked then "true" else "false") now)).filter
        (fun r => decide (r.key = config.settingKey))
      rw [updateSetting_filter_key] at hperm
      exact List.perm_singleton.mp hperm

/-- C6 witness: both conjuncts applied at concrete inputs — an empty
table written twice for key `k`, and `updateDatabaseSetting` on `DB1`. -/
theorem C6_witness :
    ((updateSetting (updateSetting [] "k" "a" 1) "k" "b" 2).filter
      (fun r => decide (r.key = "k"))) = [⟨"k", "b", 2⟩] ∧
    (updateDatabaseSetting (some ([] : SettingsWorld)) "DB1" true 7).2.success
      = true :=
  ⟨C6_updateSetting_upsert.1 [] "k" "a" "b" 1 2 (by decide),
    (C6_updateSetting_upsert.2 [] "DB1" true 7
      ⟨"DB1", "Primary Database", "database-1", "settings", "test_checkbox_db1"⟩
      (by decide)).1⟩

/-- C3: `loadDatabaseSettings` issues at most two read-alls per call; a
second read-all happens only after a first-read fault whose message
matches the table-missing pattern; on that path a successful create and
re-read return the (possibly empty) row set with no error; a non-matching
fault, or a fault of the create or of the retried read, is recorded in
the returned error field with no further retry. -/
theorem C3_load_retry_policy :
    ∀ (st : SettingsStubBehavior) (config : DatabaseConfig),
      ((loadDatabaseSettings (some st) config).2.countP
          (fun e => decide (e = SettingsCall.readAll)) ≤ 2) ∧
      (2 ≤ (loadDatabaseSettings (some st) config).2.countP
          (fun e => decide (e = SettingsCall.readAll)) →
        ∃ m, st.readAll = .error m ∧ tableMissingPattern m = true) ∧
      (∀ m, st.readAll = .error m → tableMissingPattern m = false →
        (loadDatabaseSettings (some st) config).1.error = some m ∧
        (loadDatabaseSettings (some st) config).2 = [.readAll]) ∧
      (∀ m rows, st.readAll = .error m → tableMissingPattern m = true →
        st.createTable = .ok () → st.readAllRetry = .ok rows →
        (loadDatabaseSettings (some st) config).1.allSettings = rows ∧
        (loadDatabaseSettings (some st) config).1.error = none ∧
        (loadDatabaseSettings (some st) config).2 =
          [.readAll, .createTable, .readAll]) ∧
      (∀ m e, st.readAll = .error m → tableMissingPattern m = true →
        st.createTable = .error e →
        (loadDatabaseSettings (some st) config).1.error = some e ∧
        (loadDatabaseSettings (some st) config).2 = [.readAll, .createTable]) ∧
      (∀ m e, st.readAll = .error m → tableMissingPattern m = true →
        st.createTable = .ok () → st.readAllRetry = .error e →
        (loadDatabaseSettings (some st) config).1.error = some e ∧
        (loadDatabaseSettings (some st) config).2 =
          [.readAll, .createTable, .readAll]) := by
  intro st config
  obtain ⟨ra, ct, rar⟩ := st
  cases ra with
  | ok rows0 =>
    refine ⟨?_, ?_, ?_, ?_, ?_, ?_⟩ <;>
      (try simp_all [loadDatabaseSettings, List.countP, List.countP.go])
  | error msg =>
    cases hpat : tableMissingPattern msg with
    | false =>
      refine ⟨?_, ?_, ?_, ?_, ?_, ?_⟩ <;>
        (try simp_all [loadDatabaseSettings, List.countP, List.countP.go])
    | true =>
      cases ct with
      | error ce =>
        refine ⟨?_, ?_, ?_, ?_, ?_, ?_⟩ <;>
          (try simp_all [loadDatabaseSettings, List.countP, List.countP.go])
      | ok u =>
        cases u
        cases rar with
        | ok rrows =>
          refine ⟨?_, ?_, ?_, ?_, ?_, ?_⟩ <;>
            (try simp_all [loadDatabaseSettings, List.countP, List.countP.go])
        | error re =>
          refine ⟨?_, ?_, ?_, ?_, ?_, ?_⟩ <;>
            (try simp_all [loadDatabaseSettings, List.countP, List.countP.go])

/-- The stub behaviour of a brand-new instance for the C3 witness: the
first read faults with a table-missing message, creation succeeds, the
retried read returns the empty set. -/
def stubMissingTable : SettingsStubBehavior :=
  { readAll := .error "no such table: settings",
    createTable := .ok (), readAllRetry := .ok [] }

def cfgDB1 : DatabaseConfig :=
  ⟨"DB1", "Primary Database", "database-1", "settings", "test_checkbox_db1"⟩

/-- C3 witness: the lazy-create recovery path evaluated on a brand-new
instance — empty row set, no error, exactly two read-alls. -/
theorem C3_witness :
    (loadDatabaseSettings (some stubMissingTable) cfgDB1).1.allSettings = [] ∧
    (loadDatabaseSettings (some stubMissingTable) cfgDB1).1.error = none ∧
    (loadDatabaseSettings (some stubMissingTable) cfgDB1).2 =
      [SettingsCall.readAll, SettingsCall.createTable, SettingsCall.readAll] :=
  (C3_load_retry_policy stubMissingTable cfgDB1).2.2.2.1
    "no such table: settings" [] rfl (by decide) rfl rfl
